import Mathlib

/-!
Shallow embedding of src/hexloader/hexloader.c, an AVR serial bootloader
that receives an Intel-HEX image over a UART, flashes it page by page and
verifies it in a second pass.  Machine integers are modelled as Nat with
explicit reductions modulo 256 (uint8) and 65536 (uint16) where the C
code relies on wrap-around or truncation.  The byte buffers (hex line,
page) are modelled as lists of Nat holding ASCII codes or byte values.
-/

namespace Hexloader

/-- PAGE_SIZE constant of the C source: atmega328p flash page size. -/
def PAGE_SIZE : Nat := 128

/-- MAX_LINE_LEN constant of the C source: capacity of the line buffer. -/
def MAX_LINE_LEN : Nat := 64

/-- MODE_FLASH constant of the C source. -/
def MODE_FLASH : Nat := 0

/-- MODE_VERIFY constant of the C source. -/
def MODE_VERIFY : Nat := 1

/-- FLASH_WAITING constant of the C source. -/
def FLASH_WAITING : Nat := 0

/-- FLASH_GOING_ON constant of the C source. -/
def FLASH_GOING_ON : Nat := 1

/-- FLASH_OK constant of the C source. -/
def FLASH_OK : Nat := 2

/-- FLASH_ERROR constant of the C source. -/
def FLASH_ERROR : Nat := 3

/-- BOOTAPP_SIG_1 constant of the C source (first byte of the run-app magic). -/
def BOOTAPP_SIG_1 : Nat := 0xb0

/-- BOOTAPP_SIG_2 constant of the C source (second byte of the run-app magic). -/
def BOOTAPP_SIG_2 : Nat := 0xaa

/-- nibble_to_hex from hexloader.c: convert a nibble (low 4 bits of the
argument, the C code masks with 0xf) to the ASCII code of a hex digit,
using uppercase letters. -/
def nibble_to_hex (x : Nat) : Nat :=
  let y := x % 16
  if y ≤ 9 then y + 48 else y + 65 - 10

/-- byte_to_hex from hexloader.c: two ASCII hex chars packed in a 16-bit
word, leftmost (most significant) digit in the high byte.  The C argument
is a uint8_t, modelled by the explicit reduction modulo 256. -/
def byte_to_hex (x : Nat) : Nat :=
  nibble_to_hex (x % 256 / 16) * 256 + nibble_to_hex (x % 16)

/-- word_to_hex from hexloader.c: four ASCII hex chars packed in a 32-bit
value, most significant digit first.  The C argument is a uint16_t,
modelled by the explicit reduction modulo 65536. -/
def word_to_hex (x : Nat) : Nat :=
  byte_to_hex (x % 65536 / 256) * 65536 + byte_to_hex (x % 256)

/-- hex_nibble_to_dec from hexloader.c: ASCII hex digit to its 4-bit
value; digits and both letter cases are accepted, anything else decodes
to 0 (the permissive default of the C code). -/
def hex_nibble_to_dec (x : Nat) : Nat :=
  if 48 ≤ x ∧ x ≤ 57 then x - 48
  else if 65 ≤ x ∧ x ≤ 70 then x - 65 + 10
  else if 97 ≤ x ∧ x ≤ 102 then x - 97 + 10
  else 0

/-- hex_byte_to_dec from hexloader.c: decode two ASCII hex chars (an
array in C, here the first two entries of a list; a read past the end of
the list yields 0). -/
def hex_byte_to_dec (s : List Nat) : Nat :=
  16 * hex_nibble_to_dec (s.getD 0 0) + hex_nibble_to_dec (s.getD 1 0)

/-- hex_word_to_dec from hexloader.c: decode four ASCII hex chars, most
significant byte first (the C code reads s and s + 2). -/
def hex_word_to_dec (s : List Nat) : Nat :=
  256 * hex_byte_to_dec s + hex_byte_to_dec (s.drop 2)

/-- Byte count field of a record line: hex_byte_to_dec(line + 1) in the C. -/
def rec_count (line : List Nat) : Nat := hex_byte_to_dec (line.drop 1)

/-- Address field of a record line: hex_word_to_dec(line + 3) in the C. -/
def rec_address (line : List Nat) : Nat := hex_word_to_dec (line.drop 3)

/-- Record type field of a record line: hex_byte_to_dec(line + 7) in the C. -/
def rec_type (line : List Nat) : Nat := hex_byte_to_dec (line.drop 7)

/-- Data byte i of a record line: hex_byte_to_dec(line + 9 + i * 2) in the C.
For i = rec_count this is the trailing checksum byte of the record. -/
def data_byte (line : List Nat) (i : Nat) : Nat :=
  hex_byte_to_dec (line.drop (9 + i * 2))

/-- Sum of the n data bytes of the line starting at data position i. -/
def data_sum_from (line : List Nat) : Nat → Nat → Nat
  | _, 0 => 0
  | i, n + 1 => data_byte line i + data_sum_from line (i + 1) n

/-- Total record checksum as the spec describes it: byte count, both
address bytes, record type, all data bytes and the trailing checksum
byte, summed modulo 256.  The record is well formed iff this is 0. -/
def record_total_checksum (line : List Nat) : Nat :=
  (rec_count line + rec_address line % 256 + rec_address line / 256 + rec_type line
    + data_sum_from line 0 (rec_count line) + data_byte line (rec_count line)) % 256

/-- Running checksum seed of flash_hex_line before the data loop:
count + (uint8_t)address + (address >> 8) + record_type, in uint8
arithmetic. -/
def initial_checksum (line : List Nat) : Nat :=
  (rec_count line + rec_address line % 256 + rec_address line / 256 + rec_type line) % 256

/-- State touched by the decoder/flasher: the page buffer (the global
page array), the staged page index (current_page_address), the address
tracking state (the static last_address of flash_hex_line, sentinel
0xffff) and a log of the write_current_page calls performed so far, each
recording the page index written and the page contents at that moment
(this models the flash writes). -/
structure FlashState where
  page : List Nat
  current_page_address : Nat
  last_address : Nat
  flushes : List (Nat × List Nat)
deriving DecidableEq

/-- State at entry of the bootloader pass loop: new_page() has filled the
page buffer with 0xff, current_page_address is 0 (global zero init) and
last_address holds the 0xffff sentinel. -/
def init_state : FlashState :=
  { page := List.replicate PAGE_SIZE 255
    current_page_address := 0
    last_address := 65535
    flushes := [] }

/-- is_address_valid from hexloader.c: the first data record (sentinel
last_address 0xffff) must start at address 0, later data records must not
start below the stored last_address. -/
def is_address_valid (last_address address : Nat) : Bool :=
  if last_address = 65535 ∧ address ≠ 0 then false
  else if last_address ≠ 65535 ∧ address < last_address then false
  else true

/-- One FLASH-mode data byte of the flash_hex_line loop body: if the byte
address ai lands on a different page than the staged one, flush the
staged page (write_current_page), reset the page buffer to all 0xff
(new_page) and restage, then store the byte at its offset in the staged
page. -/
def flash_byte_step (ai b : Nat) (st : FlashState) : FlashState :=
  let st1 :=
    if ai / PAGE_SIZE ≠ st.current_page_address then
      { st with
        flushes := st.flushes ++ [(st.current_page_address, st.page)]
        page := List.replicate PAGE_SIZE 255
        current_page_address := ai / PAGE_SIZE }
    else st
  { st1 with page := st1.page.set (ai % PAGE_SIZE) b }

/-- Data loop of flash_hex_line (for i = 0 .. count-1).  The arguments
after the line are the current data index i, the remaining iteration
count, the running uint8 checksum and the state.  In FLASH mode each byte
goes through flash_byte_step; in VERIFY mode the byte is compared against
the flash contents (pgm_read_byte) and a mismatch aborts with
FLASH_ERROR, modelled as none.  Byte addresses wrap at 65536 as the
16-bit arithmetic of the C does. -/
def flash_loop (mode : Nat) (flash : Nat → Nat) (line : List Nat) (address : Nat) :
    Nat → Nat → Nat → FlashState → Option (Nat × FlashState)
  | _, 0, checksum, st => some (checksum, st)
  | i, n + 1, checksum, st =>
    let b := data_byte line i
    let ai := (address + i) % 65536
    if mode = MODE_FLASH then
      flash_loop mode flash line address (i + 1) n ((checksum + b) % 256) (flash_byte_step ai b st)
    else
      if flash ai ≠ b then none
      else flash_loop mode flash line address (i + 1) n ((checksum + b) % 256) st

/-- End-of-file handling of flash_hex_line in FLASH mode: flush the
staged page, reset the page buffer, the staged page index and the
address tracking state. -/
def eof_reset (st : FlashState) : FlashState :=
  { page := List.replicate PAGE_SIZE 255
    current_page_address := 0
    last_address := 65535
    flushes := st.flushes ++ [(st.current_page_address, st.page)] }

/-- flash_hex_line from hexloader.c: decode one record line, validate the
address of a data record, run the data loop, validate the checksum, then
either finish the pass (record type 1), or accept the record and update
the address tracking state to address + count - 1 (in uint16 arithmetic,
written as + 65535 modulo 65536 to model the int wrap-around for
count = 0).  Returns the flash status and the new state. -/
def flash_hex_line (mode : Nat) (flash : Nat → Nat) (line : List Nat) (st : FlashState) :
    Nat × FlashState :=
  if rec_type line = 0 ∧ is_address_valid st.last_address (rec_address line) = false then
    (FLASH_ERROR, st)
  else
    match flash_loop mode flash line (rec_address line) 0 (rec_count line)
        (initial_checksum line) st with
    | none => (FLASH_ERROR, st)
    | some (cs, st1) =>
      if (cs + data_byte line (rec_count line)) % 256 ≠ 0 then (FLASH_ERROR, st1)
      else if rec_type line = 1 then
        if mode = MODE_FLASH then (FLASH_OK, eof_reset st1)
        else (FLASH_OK, st1)
      else
        (FLASH_GOING_ON,
          { st1 with last_address := (rec_address line + rec_count line + 65535) % 65536 })

/-- One pass of the bootloader loop in hexloader.c: feed the record lines
of the input to flash_hex_line in order, starting from status
FLASH_WAITING, and stop as soon as the status leaves
{FLASH_WAITING, FLASH_GOING_ON} (the do-while condition).  If the input
runs out first the current status is returned (the real loop would keep
polling the UART). -/
def run_records (mode : Nat) (flash : Nat → Nat) (status : Nat) (st : FlashState) :
    List (List Nat) → Nat × FlashState
  | [] => (status, st)
  | l :: ls =>
    let r := flash_hex_line mode flash l st
    if r.1 = FLASH_GOING_ON then run_records mode flash r.1 r.2 ls else r

/-- Observable outcome of the bootloader() sequencer: whether the verify
pass was entered, whether control was handed to the application, the
boot handoff signature bytes (registers r2 and r3) and whether the
watchdog reboot was armed (wdt_enable). -/
structure BootResult where
  ranVerify : Bool
  ranApp : Bool
  r2 : Nat
  r3 : Nat
  wdt_armed : Bool
deriving DecidableEq

/-- bootloader from hexloader.c, at pass granularity: run the FLASH pass
over its input lines, and on any non-OK ending reboot_to_bootloader
(signature zero/zero, watchdog armed) without entering the verify pass;
otherwise run the VERIFY pass on the state left by the flash pass, with
the same failure policy; after both passes end OK, reboot_to_app
(signature = run-app magic, watchdog armed). -/
def bootloader (flash : Nat → Nat) (input1 input2 : List (List Nat)) : BootResult :=
  let p1 := run_records MODE_FLASH flash FLASH_WAITING init_state input1
  if p1.1 ≠ FLASH_OK then
    { ranVerify := false, ranApp := false, r2 := 0, r3 := 0, wdt_armed := true }
  else
    let p2 := run_records MODE_VERIFY flash FLASH_WAITING p1.2 input2
    if p2.1 ≠ FLASH_OK then
      { ranVerify := true, ranApp := false, r2 := 0, r3 := 0, wdt_armed := true }
    else
      { ranVerify := true, ranApp := true, r2 := BOOTAPP_SIG_1, r3 := BOOTAPP_SIG_2,
        wdt_armed := true }

/-- Observable outcome of main(): whether it jumped straight to the
application, whether it ran the bootloader, and the signature registers
r2 and r3 as left for the next stage. -/
structure MainResult where
  jumpToApp : Bool
  runBootloader : Bool
  r2 : Nat
  r3 : Nat
deriving DecidableEq

/-- BOOT_APP() macro of hexloader.c: the signature registers hold the
run-application magic pair. -/
def boot_app_sig (r2 r3 : Nat) : Bool :=
  r2 == BOOTAPP_SIG_1 && r3 == BOOTAPP_SIG_2

/-- main from hexloader.c: jump to the application when no external or
watchdog reset cause is latched or when the signature is the run-app
magic, clearing the signature first; otherwise set the signature to the
magic and run the bootloader. -/
def main_entry (extrf wdrf : Bool) (r2 r3 : Nat) : MainResult :=
  if (¬ (extrf = true ∨ wdrf = true)) ∨ boot_app_sig r2 r3 = true then
    { jumpToApp := true, runBootloader := false, r2 := 0, r3 := 0 }
  else
    { jumpToApp := false, runBootloader := true, r2 := BOOTAPP_SIG_1, r3 := BOOTAPP_SIG_2 }

/-- One received byte of get_line from hexloader.c, abstracted to the
writes it performs on the line buffer.  The first component lists the
(index, value) stores into the line array, the second is the new value of
the static len counter, the third is the return value (line complete).
ESC stores a terminator at index 0; CR/LF store a terminator at index
len; any other byte is appended while len < MAX_LINE_LEN - 1, a
terminator is stored (and len still incremented) at
len = MAX_LINE_LEN - 1, and later bytes are dropped. -/
def get_line_step (len : Nat) (c : Nat) : List (Nat × Nat) × Nat × Bool :=
  if c = 27 then ([(0, 0)], 0, true)
  else if c = 13 ∨ c = 10 then
    if 0 < len then ([(len, 0)], 0, true) else ([(len, 0)], len, false)
  else if len < MAX_LINE_LEN - 1 then ([(len, c)], len + 1, false)
  else if len = MAX_LINE_LEN - 1 then ([(len, 0)], len + 1, false)
  else ([], len, false)

/-- All line-buffer writes performed by get_line over a sequence of
received bytes, starting from the given len counter. -/
def get_line_writes (len : Nat) : List Nat → List (Nat × Nat)
  | [] => []
  | c :: cs =>
    let r := get_line_step len c
    r.1 ++ get_line_writes r.2.1 cs

/-- ASCII encoding of a byte as two hex chars, most significant first
(test-input builder for concrete record lines). -/
def byte_chars (b : Nat) : List Nat :=
  [nibble_to_hex (b / 16), nibble_to_hex (b % 16)]

/-- Build a correctly checksummed ASCII Intel-HEX record line for the
given address, record type and data bytes (test-input builder). -/
def mk_record (addr : Nat) (rtype : Nat) (data : List Nat) : List Nat :=
  let count := data.length
  let cks := (256 - (count + addr / 256 + addr % 256 + rtype + data.foldl (· + ·) 0) % 256) % 256
  58 :: (byte_chars count ++ byte_chars (addr / 256) ++ byte_chars (addr % 256)
    ++ byte_chars rtype ++ (data.map byte_chars).flatten ++ byte_chars cks)

/-- A data record with one data byte 0x00 at address 0 whose trailing
checksum byte 0x00 is wrong (the total is 1): the ASCII line
:0100000000 followed by 00. -/
def bad_checksum_line : List Nat :=
  [58, 48, 49, 48, 48, 48, 48, 48, 48, 48, 48, 48, 48]

/-- A data record with one data byte at address 5 and a correct checksum:
the ASCII line :01000500AB4F. -/
def addr5_line : List Nat := mk_record 5 0 [0xAB]

/-- A record of type 2 with one data byte 0xAB at address 0 and a correct
checksum: the ASCII line :01000002AB52. -/
def type2_line : List Nat := mk_record 0 2 [0xAB]

/-- A 300 byte image at addresses 0 .. 299: eighteen 16-byte data records
followed by one 12-byte data record (no end-of-file record). -/
def image300_lines : List (List Nat) :=
  (List.range 18).map (fun k => mk_record (16 * k) 0 (List.replicate 16 0))
    ++ [mk_record 288 0 (List.replicate 12 0)]

/-- Result of feeding the 300 byte image to the FLASH pass. -/
def image300_result : Nat × FlashState :=
  run_records MODE_FLASH (fun _ => 0) FLASH_WAITING init_state image300_lines

/-- Input stream that fills the line buffer: 64 ordinary bytes followed
by a carriage return. -/
def overflow_input : List Nat := List.replicate 64 97 ++ [13]

theorem nibble_to_hex_lt (x : Nat) : nibble_to_hex x < 256 := by
  have h : x % 16 < 16 := Nat.mod_lt _ (by omega)
  simp only [nibble_to_hex]
  split <;> omega

theorem byte_to_hex_lt (x : Nat) : byte_to_hex x < 65536 := by
  have h1 := nibble_to_hex_lt (x % 256 / 16)
  have h2 := nibble_to_hex_lt (x % 16)
  simp only [byte_to_hex]
  omega

set_option maxRecDepth 9000

theorem hex_word_to_dec_quad (c0 c1 c2 c3 : Nat) :
    hex_word_to_dec [c0, c1, c2, c3] =
      256 * (16 * hex_nibble_to_dec c0 + hex_nibble_to_dec c1)
        + (16 * hex_nibble_to_dec c2 + hex_nibble_to_dec c3) := rfl

theorem byte_roundtrip_nibbles (b : Nat) (hb : b < 256) :
    16 * hex_nibble_to_dec (byte_to_hex b / 256) + hex_nibble_to_dec (byte_to_hex b % 256) = b := by
  revert hb
  revert b
  decide

/-- C8: decoding the two-hex-digit encoding of a byte yields the byte
back, and decoding the four-hex-digit encoding of a 16-bit word yields
the word back, most significant digit first in both packings. -/
theorem hex_encode_decode_roundtrip :
    (∀ b, b < 256 →
      hex_byte_to_dec [byte_to_hex b / 256, byte_to_hex b % 256] = b) ∧
    (∀ w, w < 65536 →
      hex_word_to_dec [word_to_hex w / 16777216, word_to_hex w / 65536 % 256,
        word_to_hex w / 256 % 256, word_to_hex w % 256] = w) := by
  constructor
  · intro b hb
    have h := byte_roundtrip_nibbles b hb
    simpa [hex_byte_to_dec] using h
  · intro w hw
    have hmod : w % 65536 = w := Nat.mod_eq_of_lt hw
    have hbh := byte_to_hex_lt (w / 256)
    have hbl := byte_to_hex_lt (w % 256)
    have hh : word_to_hex w = byte_to_hex (w / 256) * 65536 + byte_to_hex (w % 256) := by
      simp only [word_to_hex, hmod]
    have hrt1 := byte_roundtrip_nibbles (w / 256) (by omega)
    have hrt2 := byte_roundtrip_nibbles (w % 256) (Nat.mod_lt _ (by omega))
    rw [hh]
    have e0 : (byte_to_hex (w / 256) * 65536 + byte_to_hex (w % 256)) / 16777216
        = byte_to_hex (w / 256) / 256 := by omega
    have e1 : (byte_to_hex (w / 256) * 65536 + byte_to_hex (w % 256)) / 65536 % 256
        = byte_to_hex (w / 256) % 256 := by omega
    have e2 : (byte_to_hex (w / 256) * 65536 + byte_to_hex (w % 256)) / 256 % 256
        = byte_to_hex (w % 256) / 256 := by omega
    have e3 : (byte_to_hex (w / 256) * 65536 + byte_to_hex (w % 256)) % 256
        = byte_to_hex (w % 256) % 256 := by omega
    rw [hex_word_to_dec_quad]
    simp only [e0, e1, e2, e3]
    omega

/-- C8 witness: the round trips evaluated at the concrete byte 0xAB and
the concrete word 0x1234. -/
theorem hex_encode_decode_roundtrip_witness :
    hex_byte_to_dec [byte_to_hex 171 / 256, byte_to_hex 171 % 256] = 171 ∧
    hex_word_to_dec [word_to_hex 4660 / 16777216, word_to_hex 4660 / 65536 % 256,
      word_to_hex 4660 / 256 % 256, word_to_hex 4660 % 256] = 4660 :=
  ⟨hex_encode_decode_roundtrip.1 171 (by decide),
   hex_encode_decode_roundtrip.2 4660 (by decide)⟩

/-- C9: hex_nibble_to_dec is case insensitive on the hex letters, returns
the digit value on ASCII digits, and returns 0 (rather than an error) on
every character that is not an ASCII hex digit. -/
theorem hex_nibble_to_dec_spec :
    (∀ c, 97 ≤ c → c ≤ 102 → hex_nibble_to_dec c = hex_nibble_to_dec (c - 32)) ∧
    (∀ c, 48 ≤ c → c ≤ 57 → hex_nibble_to_dec c = c - 48) ∧
    (∀ c, ¬ (48 ≤ c ∧ c ≤ 57) → ¬ (65 ≤ c ∧ c ≤ 70) → ¬ (97 ≤ c ∧ c ≤ 102) →
      hex_nibble_to_dec c = 0) := by
  refine ⟨?_, ?_, ?_⟩
  · intro c h1 h2
    simp only [hex_nibble_to_dec]
    split_ifs <;> omega
  · intro c h1 h2
    simp only [hex_nibble_to_dec]
    split_ifs <;> omega
  · intro c h1 h2 h3
    simp only [hex_nibble_to_dec, if_neg h1, if_neg h2, if_neg h3]

/-- C9 witness: lowercase a decodes like uppercase A, the digit 7 decodes
to 7, and the non-hex character : decodes to 0. -/
theorem hex_nibble_to_dec_spec_witness :
    hex_nibble_to_dec 97 = hex_nibble_to_dec (97 - 32) ∧
    hex_nibble_to_dec 55 = 55 - 48 ∧
    hex_nibble_to_dec 58 = 0 :=
  ⟨hex_nibble_to_dec_spec.1 97 (by decide) (by decide),
   hex_nibble_to_dec_spec.2.1 55 (by decide) (by decide),
   hex_nibble_to_dec_spec.2.2 58 (by decide) (by decide) (by decide)⟩

theorem initial_checksum_lt (line : List Nat) : initial_checksum line < 256 :=
  Nat.mod_lt _ (by omega)

theorem flash_loop_flash_eq (flash : Nat → Nat) (line : List Nat) (address : Nat) :
    ∀ n i cs st, cs < 256 →
      ∃ st1, flash_loop MODE_FLASH flash line address i n cs st
        = some ((cs + data_sum_from line i n) % 256, st1) := by
  intro n
  induction n with
  | zero =>
    intro i cs st hcs
    exact ⟨st, by simp [flash_loop, data_sum_from, Nat.mod_eq_of_lt hcs]⟩
  | succ n ih =>
    intro i cs st hcs
    obtain ⟨st1, h⟩ := ih (i + 1) ((cs + data_byte line i) % 256)
      (flash_byte_step ((address + i) % 65536) (data_byte line i) st)
      (Nat.mod_lt _ (by omega))
    refine ⟨st1, ?_⟩
    have heq : ((cs + data_byte line i) % 256 + data_sum_from line (i + 1) n) % 256
        = (cs + data_sum_from line i (n + 1)) % 256 := by
      simp only [data_sum_from]
      omega
    simp [flash_loop, h, heq]

theorem flash_loop_nonflash_eq (mode : Nat) (hm : mode ≠ MODE_FLASH) (flash : Nat → Nat)
    (line : List Nat) (address : Nat) :
    ∀ n i cs st, cs < 256 →
      flash_loop mode flash line address i n cs st = none ∨
      flash_loop mode flash line address i n cs st
        = some ((cs + data_sum_from line i n) % 256, st) := by
  intro n
  induction n with
  | zero =>
    intro i cs st hcs
    right
    simp [flash_loop, data_sum_from, Nat.mod_eq_of_lt hcs]
  | succ n ih =>
    intro i cs st hcs
    simp only [flash_loop, if_neg hm]
    by_cases hb : flash ((address + i) % 65536) ≠ data_byte line i
    · left
      rw [if_pos hb]
    · rw [if_neg hb]
      rcases ih (i + 1) ((cs + data_byte line i) % 256) st (Nat.mod_lt _ (by omega)) with h | h
      · left
        exact h
      · right
        rw [h]
        have : ((cs + data_byte line i) % 256 + data_sum_from line (i + 1) n) % 256
            = (cs + data_sum_from line i (n + 1)) % 256 := by
          simp only [data_sum_from]
          omega
        rw [this]

theorem loop_checksum_total (line : List Nat) :
    ((initial_checksum line + data_sum_from line 0 (rec_count line)) % 256
      + data_byte line (rec_count line)) % 256 = record_total_checksum line := by
  simp only [initial_checksum, record_total_checksum]
  omega

/-- C1 (amended): a record whose total checksum is nonzero modulo 256 is
rejected with FLASH_ERROR in both modes; in VERIFY mode the whole state,
in particular the staged page, is untouched, while in FLASH mode the
data bytes of the record have already been routed into the page buffer
before the checksum test is reached. -/
theorem checksum_error_rejects (mode : Nat) (flash : Nat → Nat) (line : List Nat)
    (st : FlashState) (h : record_total_checksum line ≠ 0) :
    (flash_hex_line mode flash line st).1 = FLASH_ERROR ∧
    (mode ≠ MODE_FLASH → (flash_hex_line mode flash line st).2 = st) := by
  by_cases ha : rec_type line = 0 ∧ is_address_valid st.last_address (rec_address line) = false
  · simp [flash_hex_line, ha]
  · by_cases hm : mode = MODE_FLASH
    · subst hm
      obtain ⟨st1, hloop⟩ := flash_loop_flash_eq flash line (rec_address line)
        (rec_count line) 0 (initial_checksum line) st (initial_checksum_lt line)
      have hcs : ((initial_checksum line + data_sum_from line 0 (rec_count line)) % 256
          + data_byte line (rec_count line)) % 256 ≠ 0 := by
        rw [loop_checksum_total]
        exact h
      constructor
      · simp only [flash_hex_line, if_neg ha, hloop, if_pos hcs]
      · intro hmode
        exact absurd rfl hmode
    · rcases flash_loop_nonflash_eq mode hm flash line (rec_address line)
        (rec_count line) 0 (initial_checksum line) st (initial_checksum_lt line) with hloop | hloop
      · constructor
        · simp only [flash_hex_line, if_neg ha, hloop]
        · intro _
          simp only [flash_hex_line, if_neg ha, hloop]
      · have hcs : ((initial_checksum line + data_sum_from line 0 (rec_count line)) % 256
            + data_byte line (rec_count line)) % 256 ≠ 0 := by
          rw [loop_checksum_total]
          exact h
        constructor
        · simp only [flash_hex_line, if_neg ha, hloop, if_pos hcs]
        · intro _
          simp only [flash_hex_line, if_neg ha, hloop, if_pos hcs]

/-- C1 witness: the bad-checksum record rejected in VERIFY mode, with the
state returned untouched. -/
theorem checksum_error_rejects_witness :
    record_total_checksum bad_checksum_line ≠ 0 ∧
    (flash_hex_line MODE_VERIFY (fun _ => 0) bad_checksum_line init_state).1 = FLASH_ERROR ∧
    (flash_hex_line MODE_VERIFY (fun _ => 0) bad_checksum_line init_state).2 = init_state :=
  ⟨by decide,
   (checksum_error_rejects MODE_VERIFY (fun _ => 0) bad_checksum_line init_state (by decide)).1,
   (checksum_error_rejects MODE_VERIFY (fun _ => 0) bad_checksum_line init_state
     (by decide)).2 (by decide)⟩

/-- C1 counterexample: in FLASH mode the same bad-checksum record is
rejected, but the staged page buffer is no longer what it was before the
call: the data byte 0x00 has overwritten the erased 0xff at offset 0. -/
theorem checksum_error_corrupts_page_cex :
    record_total_checksum bad_checksum_line ≠ 0 ∧
    (flash_hex_line MODE_FLASH (fun _ => 0) bad_checksum_line init_state).1 = FLASH_ERROR ∧
    (flash_hex_line MODE_FLASH (fun _ => 0) bad_checksum_line init_state).2.page
      ≠ init_state.page := by decide

/-- C2: a data record (type 0) that violates the address tracking rule is
rejected with FLASH_ERROR: either it is the very first data record (the
tracking state still holds the 0xffff sentinel) and its address is not 0,
or a record was already processed and the new start address regresses
below the stored last address. -/
theorem address_violation_rejects (mode : Nat) (flash : Nat → Nat) (line : List Nat)
    (st : FlashState) (ht : rec_type line = 0)
    (h : (st.last_address = 65535 ∧ rec_address line ≠ 0) ∨
         (st.last_address ≠ 65535 ∧ rec_address line < st.last_address)) :
    (flash_hex_line mode flash line st).1 = FLASH_ERROR := by
  have hv : is_address_valid st.last_address (rec_address line) = false := by
    simp only [is_address_valid]
    rcases h with ⟨h1, h2⟩ | ⟨h1, h2⟩
    · rw [if_pos ⟨h1, h2⟩]
    · rw [if_neg, if_pos ⟨h1, h2⟩]
      rintro ⟨e1, _⟩
      exact h1 e1
  simp [flash_hex_line, ht, hv]

/-- C2 witness: a data record with address 5 as the very first data
record is rejected. -/
theorem address_violation_rejects_witness :
    rec_type addr5_line = 0 ∧ init_state.last_address = 65535 ∧ rec_address addr5_line = 5 ∧
    (flash_hex_line MODE_FLASH (fun _ => 0) addr5_line init_state).1 = FLASH_ERROR :=
  ⟨by decide, by decide, by decide,
   address_violation_rejects MODE_FLASH (fun _ => 0) addr5_line init_state (by decide)
     (Or.inl ⟨by decide, by decide⟩)⟩

/-- C3 counterexample: a checksum-correct record of type 2 with one data
byte, processed in FLASH mode from the fresh state, changes both the page
buffer (its payload byte is stored at offset 0) and the address tracking
state, refuting the claim that such records are ignored apart from the
checksum. -/
theorem other_record_type_cex :
    rec_type type2_line = 2 ∧ record_total_checksum type2_line = 0 ∧
    (flash_hex_line MODE_FLASH (fun _ => 0) type2_line init_state).2.page
      ≠ init_state.page ∧
    (flash_hex_line MODE_FLASH (fun _ => 0) type2_line init_state).2.last_address
      ≠ init_state.last_address := by decide

/-- C3 (amended): a record whose type is neither 0 nor 1 skips only the
address validation; its payload bytes still run through the FLASH-mode
data loop (reaching the page buffer and, across page crossings, the
flash), and when its checksum is valid the record is accepted with
FLASH_GOING_ON and updates the address tracking state exactly like a
data record. -/
theorem other_record_type_processed (flash : Nat → Nat) (line : List Nat) (st : FlashState)
    (h0 : rec_type line ≠ 0) (h1 : rec_type line ≠ 1)
    (hc : record_total_checksum line = 0) :
    ∃ cs st1,
      flash_loop MODE_FLASH flash line (rec_address line) 0 (rec_count line)
        (initial_checksum line) st = some (cs, st1) ∧
      flash_hex_line MODE_FLASH flash line st =
        (FLASH_GOING_ON,
          { st1 with last_address := (rec_address line + rec_count line + 65535) % 65536 }) := by
  obtain ⟨st1, hloop⟩ := flash_loop_flash_eq flash line (rec_address line)
    (rec_count line) 0 (initial_checksum line) st (initial_checksum_lt line)
  refine ⟨_, st1, hloop, ?_⟩
  have ha : ¬ (rec_type line = 0 ∧
      is_address_valid st.last_address (rec_address line) = false) := by
    rintro ⟨e, _⟩
    exact h0 e
  have hcs : ¬ ((initial_checksum line + data_sum_from line 0 (rec_count line)) % 256
      + data_byte line (rec_count line)) % 256 ≠ 0 := by
    rw [loop_checksum_total]
    simpa using hc
  simp only [flash_hex_line, if_neg ha, hloop, if_neg hcs, if_neg h1]

/-- C3 witness: the amended behavior evaluated on the concrete type 2
record. -/
theorem other_record_type_processed_witness :
    rec_type type2_line ≠ 0 ∧ rec_type type2_line ≠ 1 ∧
    record_total_checksum type2_line = 0 ∧
    ∃ cs st1,
      flash_loop MODE_FLASH (fun _ => 0) type2_line (rec_address type2_line) 0
        (rec_count type2_line) (initial_checksum type2_line) init_state = some (cs, st1) ∧
      flash_hex_line MODE_FLASH (fun _ => 0) type2_line init_state =
        (FLASH_GOING_ON,
          { st1 with
            last_address := (rec_address type2_line + rec_count type2_line + 65535) % 65536 }) :=
  ⟨by decide, by decide, by decide,
   other_record_type_processed (fun _ => 0) type2_line init_state (by decide) (by decide)
     (by decide)⟩

/-- C10: in VERIFY mode flash_hex_line never touches the page buffer, the
staged page index or the flash (the write_current_page log): all three
are identical before and after the call, on every line and every state. -/
theorem verify_mode_frame (flash : Nat → Nat) (line : List Nat) (st : FlashState) :
    (flash_hex_line MODE_VERIFY flash line st).2.page = st.page ∧
    (flash_hex_line MODE_VERIFY flash line st).2.current_page_address
      = st.current_page_address ∧
    (flash_hex_line MODE_VERIFY flash line st).2.flushes = st.flushes := by
  have hm : MODE_VERIFY ≠ MODE_FLASH := by decide
  by_cases ha : rec_type line = 0 ∧ is_address_valid st.last_address (rec_address line) = false
  · simp [flash_hex_line, ha]
  · rcases flash_loop_nonflash_eq MODE_VERIFY hm flash line (rec_address line)
      (rec_count line) 0 (initial_checksum line) st (initial_checksum_lt line) with hloop | hloop
    · simp [flash_hex_line, if_neg ha, hloop]
    · by_cases hcs : ((initial_checksum line + data_sum_from line 0 (rec_count line)) % 256
          + data_byte line (rec_count line)) % 256 ≠ 0
      · have hcs2 : ¬ ((initial_checksum line + data_sum_from line 0 (rec_count line)
            + data_byte line (rec_count line)) % 256 = 0) := by omega
        simp [flash_hex_line, if_neg ha, hloop, hcs2]
      · have hcs2 : (initial_checksum line + data_sum_from line 0 (rec_count line)
            + data_byte line (rec_count line)) % 256 = 0 := by omega
        by_cases ht : rec_type line = 1
        · simp [flash_hex_line, if_neg ha, hloop, hcs2, ht, if_neg hm]
        · simp [flash_hex_line, if_neg ha, hloop, hcs2, ht]

/-- C4: if the FLASH pass ends in ERROR the bootloader writes the
run-bootloader signature (zero/zero), arms the watchdog, and never enters
the VERIFY pass; if the VERIFY pass ends in ERROR the same happens and
the application is never entered; both passes ending OK is the only way
the run-application magic is written, and then the watchdog reboot into
the application is armed. -/
theorem pass_error_policy (flash : Nat → Nat) (input1 input2 : List (List Nat)) :
    ((run_records MODE_FLASH flash FLASH_WAITING init_state input1).1 = FLASH_ERROR →
      bootloader flash input1 input2 =
        { ranVerify := false, ranApp := false, r2 := 0, r3 := 0, wdt_armed := true }) ∧
    ((run_records MODE_FLASH flash FLASH_WAITING init_state input1).1 = FLASH_OK →
      (run_records MODE_VERIFY flash FLASH_WAITING
        (run_records MODE_FLASH flash FLASH_WAITING init_state input1).2 input2).1
          = FLASH_ERROR →
      bootloader flash input1 input2 =
        { ranVerify := true, ranApp := false, r2 := 0, r3 := 0, wdt_armed := true }) ∧
    ((run_records MODE_FLASH flash FLASH_WAITING init_state input1).1 = FLASH_OK →
      (run_records MODE_VERIFY flash FLASH_WAITING
        (run_records MODE_FLASH flash FLASH_WAITING init_state input1).2 input2).1
          = FLASH_OK →
      bootloader flash input1 input2 =
        { ranVerify := true, ranApp := true, r2 := BOOTAPP_SIG_1, r3 := BOOTAPP_SIG_2,
          wdt_armed := true }) ∧
    ((bootloader flash input1 input2).r2 = BOOTAPP_SIG_1 →
      (run_records MODE_FLASH flash FLASH_WAITING init_state input1).1 = FLASH_OK ∧
      (run_records MODE_VERIFY flash FLASH_WAITING
        (run_records MODE_FLASH flash FLASH_WAITING init_state input1).2 input2).1
          = FLASH_OK) := by
  refine ⟨?_, ?_, ?_, ?_⟩
  · intro h1
    simp [bootloader, h1, FLASH_ERROR, FLASH_OK]
  · intro h1 h2
    simp [bootloader, h1, h2, FLASH_ERROR, FLASH_OK]
  · intro h1 h2
    simp [bootloader, h1, h2, FLASH_OK]
  · intro h
    by_cases e1 : (run_records MODE_FLASH flash FLASH_WAITING init_state input1).1 = FLASH_OK
    · by_cases e2 : (run_records MODE_VERIFY flash FLASH_WAITING
          (run_records MODE_FLASH flash FLASH_WAITING init_state input1).2 input2).1 = FLASH_OK
      · exact ⟨e1, e2⟩
      · exfalso
        simp [bootloader, e1, e2, BOOTAPP_SIG_1] at h
    · exfalso
      simp [bootloader, e1, BOOTAPP_SIG_1] at h

/-- C4 witness: a flash pass consisting of one bad-checksum record ends
in ERROR, and the boot sequencer then reboots to the bootloader with the
signature cleared and without entering the verify pass. -/
theorem pass_error_policy_witness :
    (run_records MODE_FLASH (fun _ => 0) FLASH_WAITING init_state [bad_checksum_line]).1
      = FLASH_ERROR ∧
    bootloader (fun _ => 0) [bad_checksum_line] [] =
      { ranVerify := false, ranApp := false, r2 := 0, r3 := 0, wdt_armed := true } :=
  ⟨by decide, (pass_error_policy (fun _ => 0) [bad_checksum_line] []).1 (by decide)⟩

/-- C5: main jumps directly to the application exactly when no external
or watchdog reset cause is latched or the signature registers hold the
run-application magic; on a jump the signature is cleared first, and in
every other case the signature is set to the magic and the bootloader
runs. -/
theorem main_entry_spec (e w : Bool) (r2 r3 : Nat) :
    ((main_entry e w r2 r3).jumpToApp = true ↔
      ((e = false ∧ w = false) ∨ (r2 = BOOTAPP_SIG_1 ∧ r3 = BOOTAPP_SIG_2))) ∧
    ((main_entry e w r2 r3).jumpToApp = true →
      (main_entry e w r2 r3).r2 = 0 ∧ (main_entry e w r2 r3).r3 = 0) ∧
    ((main_entry e w r2 r3).jumpToApp = false →
      (main_entry e w r2 r3).runBootloader = true ∧
      (main_entry e w r2 r3).r2 = BOOTAPP_SIG_1 ∧
      (main_entry e w r2 r3).r3 = BOOTAPP_SIG_2) := by
  have hsig : boot_app_sig r2 r3 = true ↔ (r2 = BOOTAPP_SIG_1 ∧ r3 = BOOTAPP_SIG_2) := by
    simp [boot_app_sig]
  by_cases hc : (¬ (e = true ∨ w = true)) ∨ boot_app_sig r2 r3 = true
  · have hr : main_entry e w r2 r3 =
        { jumpToApp := true, runBootloader := false, r2 := 0, r3 := 0 } := by
      simp only [main_entry, if_pos hc]
    rw [hr]
    refine ⟨?_, fun _ => ⟨rfl, rfl⟩, fun h => by simp at h⟩
    constructor
    · intro _
      rcases hc with hne | hb
      · left
        constructor
        · cases e
          · rfl
          · exact absurd (Or.inl rfl) hne
        · cases w
          · rfl
          · exact absurd (Or.inr rfl) hne
      · right
        exact hsig.mp hb
    · intro _
      rfl
  · have hr : main_entry e w r2 r3 =
        { jumpToApp := false, runBootloader := true,
          r2 := BOOTAPP_SIG_1, r3 := BOOTAPP_SIG_2 } := by
      simp only [main_entry, if_neg hc]
    rw [hr]
    refine ⟨?_, fun h => by simp at h, fun _ => ⟨rfl, rfl, rfl⟩⟩
    constructor
    · intro h
      exact absurd h (by simp)
    · intro h
      exfalso
      rcases h with ⟨he, hw⟩ | hs
      · exact hc (Or.inl (by simp [he, hw]))
      · exact hc (Or.inr (hsig.mpr hs))

/-- C5 witness: a plain power-up (no reset causes, signature cleared)
jumps straight to the application. -/
theorem main_entry_spec_witness :
    (main_entry false false 0 0).jumpToApp = true :=
  (main_entry_spec false false 0 0).1.mpr (Or.inl ⟨rfl, rfl⟩)

/-- C6 counterexample: the concrete 300 byte image at addresses 0 to 299
spans three 128-byte pages and triggers exactly two intermediate page
flushes during the FLASH pass, not one. -/
theorem page_cross_flush_cex :
    image300_result.2.flushes.length ≠ 1 ∧
    image300_result.2.flushes.length = 2 := by decide

/-- C6 (amended): in FLASH mode a data byte whose address lands outside
the staged page first flushes the staged page to the write log, restages
to the new page index (address + i) / 128, resets the page buffer so that
every byte not yet supplied holds the erased value 0xff, and only then
stores the byte at offset (address + i) mod 128; a 300 byte image
spanning three 128-byte pages triggers exactly two intermediate page
flushes, one per boundary crossed. -/
theorem page_cross_mechanism :
    (∀ ai b st, ai / PAGE_SIZE ≠ st.current_page_address →
      flash_byte_step ai b st =
        { page := (List.replicate PAGE_SIZE 255).set (ai % PAGE_SIZE) b
          current_page_address := ai / PAGE_SIZE
          last_address := st.last_address
          flushes := st.flushes ++ [(st.current_page_address, st.page)] }) ∧
    image300_result.2.flushes.length = 2 := by
  constructor
  · intro ai b st h
    simp only [flash_byte_step, if_pos h]
  · decide

/-- C6 witness: the crossing mechanism evaluated at byte address 128 with
the first page staged. -/
theorem page_cross_mechanism_witness :
    128 / PAGE_SIZE ≠ init_state.current_page_address ∧
    flash_byte_step 128 7 init_state =
      { page := (List.replicate PAGE_SIZE 255).set (128 % PAGE_SIZE) 7
        current_page_address := 128 / PAGE_SIZE
        last_address := init_state.last_address
        flushes := init_state.flushes ++ [(init_state.current_page_address, init_state.page)] } :=
  ⟨by decide, page_cross_mechanism.1 128 7 init_state (by decide)⟩

/-- C7: evaluating get_line on 64 ordinary bytes followed by a carriage
return performs a line-buffer store at index 64, one past the end of the
64-byte line array: the terminating write does not stay in bounds. -/
theorem get_line_out_of_bounds :
    (∃ wr ∈ get_line_writes 0 overflow_input, MAX_LINE_LEN ≤ wr.1) ∧
    (64, 0) ∈ get_line_writes 0 overflow_input := by decide

end Hexloader
